import Mathlib

/-!
Verification of the Slack→Jira bot webhook handler (`src/app.py`).

The whole program is one Flask endpoint `slack_events` operating on two
process-wide mutable objects: the set `handled_event_ids` and the dict
`conversation_states`.  We embed the handler as a pure function from the
parsed request payload, the behaviour of the two fallible collaborators
(the GPT date resolver and the Jira issue-creation endpoint), and the
current mutable state, to a result consisting of the HTTP response, the
new state, and the ordered list of outbound collaborator calls made.

Python dicts are embedded as association lists with Python's semantics
(`dictGet` = `d.get(k)`, `dictSet` = `d[k] = v` / in-place mutation of the
stored dict, `dictPop` = `d.pop(k, None)`); the set of handled event ids is
a list used only through membership.  Missing JSON fields read through
`.get` are embedded as `Option`/defaulted fields; in particular
`data.get("event_id")` yields Python `None` for a missing id, so the
dedup set holds `Option String`.  String operations model the Python ones
on ASCII text: `pyStrip` for `str.strip()`, `pyContains` for the `in`
operator on a one-character needle, and `pyCapitalize` for
`str.capitalize()` (first character upper-cased, the rest lower-cased).
An exception raised by a collaborator that the handler does not catch is
embedded as the `HResp.crash` response (Flask turns it into a 500).
-/

namespace JiraBot

/-- The inner Slack event object `data.get("event", {})`, with the fields the
handler reads through `.get` defaults: `text` (default `""`), `user`
(default Python `None`), `channel` (default `None`), and whether the key
`"bot_id"` is present. -/
structure InEvent where
  text : String := ""
  user : Option String := none
  channel : Option String := none
  bot_id_present : Bool := false
deriving DecidableEq

/-- The parsed JSON body of a POST to `/slack/events`: presence of a
`"challenge"` field, `data.get("event_id")`, and the inner event object. -/
structure Payload where
  challenge : Option String := none
  event_id : Option String := none
  event : InEvent := {}
deriving DecidableEq

/-- A per-user conversation dict stored in `conversation_states`.  The source
stores it as a dict that always carries `"step"`; the other keys are only
read on paths after they were written, so defaulting them to `""` is
unobservable. -/
structure Convo where
  step : String
  summary : String := ""
  due_raw : String := ""
  priority : String := ""
deriving DecidableEq

/-- The process-wide mutable state: the dedup set `handled_event_ids`
(holding `Option String`, since `handled_event_ids.add(None)` is possible)
and the session dict `conversation_states` keyed by the Slack user id
(`None` if the event carried no user). -/
structure SState where
  handled_event_ids : List (Option String) := []
  conversation_states : List (Option String × Convo) := []
deriving DecidableEq

/-- Python `d.get(k)` on the session dict. -/
def dictGet : List (Option String × Convo) → Option String → Option Convo
  | [], _ => none
  | (k, v) :: rest, key => if k = key then some v else dictGet rest key

/-- Python `d[k] = v` (equivalently, in-place mutation of the dict object
stored under an existing key): replace the entry if the key is present,
append it otherwise. -/
def dictSet : List (Option String × Convo) → Option String → Convo → List (Option String × Convo)
  | [], key, val => [(key, val)]
  | (k, v) :: rest, key, val =>
    if k = key then (key, val) :: rest else (k, v) :: dictSet rest key val

/-- Python `d.pop(k, None)` (discarding the returned value). -/
def dictPop : List (Option String × Convo) → Option String → List (Option String × Convo)
  | [], _ => []
  | (k, v) :: rest, key => if k = key then rest else (k, v) :: dictPop rest key

/-- The fixed-shape Jira issue payload built at line 110 of `app.py`:
`project.key = "BT"`, the stored summary, the resolved due date, the
normalized priority name, `issuetype.name = "Task"`. -/
structure JiraPayload where
  project_key : String := "BT"
  summary : String
  duedate : String
  priority : String
  issuetype : String := "Task"
deriving DecidableEq

/-- One outbound collaborator call, in the order the handler performs them:
a Slack `chat.postMessage`, a GPT chat-completion request carrying the raw
due text, or a Jira issue-creation POST carrying the built payload. -/
inductive Call where
  | postMessage (channel : Option String) (text : String)
  | gptDueDate (due_raw : String)
  | jiraCreateIssue (payload : JiraPayload)
deriving DecidableEq

/-- Behaviour of the GPT call at line 89: either it returns message content
(`choices[0].message.content`) or it raises an exception whose `str` is `e`. -/
inductive GptOutcome where
  | content (s : String)
  | raise (e : String)
deriving DecidableEq

/-- A Jira HTTP response as the handler reads it: `status_code`, the raw
body `.text`, and `.json().get("key")`. -/
structure JiraResp where
  status_code : Nat
  text : String
  key : Option String
deriving DecidableEq

/-- Behaviour of the Jira POST at line 121: a response, or a raised
exception (e.g. a network error) whose `str` is `e`. -/
inductive JiraOutcome where
  | resp (r : JiraResp)
  | raise (e : String)
deriving DecidableEq

/-- The behaviour the two fallible collaborators would exhibit if called
during this handler invocation. -/
structure World where
  gpt : GptOutcome
  jira : JiraOutcome
deriving DecidableEq

/-- The HTTP response of one handler invocation: the verbatim challenge echo
`{"challenge": c}` (200, JSON content type), the acknowledgment
`{"ok": true}` (200), or an uncaught exception propagating out of the
handler (Flask answers 500). -/
inductive HResp where
  | challengeEcho (c : String)
  | okTrue
  | crash (e : String)
deriving DecidableEq

/-- The observable outcome of one handler invocation: response, new mutable
state, and the outbound collaborator calls in order. -/
structure HResult where
  resp : HResp
  state : SState
  calls : List Call
deriving DecidableEq

/-- Python `str(x)` applied to `jira_resp.json().get("key")`, which is `None`
when the body has no `"key"`. -/
def keyText : Option String → String
  | none => "None"
  | some k => k

/-- Python `str.strip()` on ASCII text: drop leading and trailing
whitespace. -/
def pyStrip (s : String) : String :=
  String.mk (((s.data.dropWhile Char.isWhitespace).reverse.dropWhile Char.isWhitespace).reverse)

/-- Python `c in s` for a single character `c`. -/
def pyContains (s : String) (c : Char) : Bool :=
  s.data.contains c

/-- Python `str.capitalize()` on ASCII text: first character upper-cased and
every following character lower-cased. -/
def pyCapitalize (s : String) : String :=
  match s.data with
  | [] => ""
  | c :: cs => String.mk (c.toUpper :: cs.map Char.toLower)

/-- Lines 88–134 of `app.py`: finalization, entered from the `ask_priority`
branch after the stored conversation dict was already mutated in place to
`step = "create_issue"` with the normalized priority (so `s` here already
holds that mutated dict, and `convo` is that same mutated dict).  Calls GPT
on the stored raw due text; an exception becomes a user-visible error and
session removal.  Otherwise the stripped content passes the format check
`len(due_date) == 10 and "-" in due_date`; failure warns the user and
removes the session.  Otherwise the Jira payload is built and POSTed: an
exception propagates uncaught (state keeps the `create_issue` session),
status 201 notifies success with the issue key and summary, anything else
notifies failure with the raw body; both response cases remove the session. -/
def finalize_issue (channel_id user_id : Option String) (convo : Convo) (w : World)
    (s : SState) : HResult :=
  match w.gpt with
  | .raise e =>
    ⟨.okTrue, { s with conversation_states := dictPop s.conversation_states user_id },
     [.gptDueDate convo.due_raw,
      .postMessage channel_id ("❌ GPT error parsing due date: " ++ e)]⟩
  | .content content =>
    if (pyStrip content).length ≠ 10 ∨ pyContains (pyStrip content) '-' = false then
      ⟨.okTrue, { s with conversation_states := dictPop s.conversation_states user_id },
       [.gptDueDate convo.due_raw,
        .postMessage channel_id
          "⚠️ Couldn\x27t understand the due date. Please say something like \x27tomorrow\x27 or \x27July 2, 2025\x27."]⟩
    else
      match w.jira with
      | .raise e =>
        ⟨.crash e, s,
         [.gptDueDate convo.due_raw,
          .jiraCreateIssue ⟨"BT", convo.summary, pyStrip content, convo.priority, "Task"⟩]⟩
      | .resp r =>
        if r.status_code = 201 then
          ⟨.okTrue, { s with conversation_states := dictPop s.conversation_states user_id },
           [.gptDueDate convo.due_raw,
            .jiraCreateIssue ⟨"BT", convo.summary, pyStrip content, convo.priority, "Task"⟩,
            .postMessage channel_id
              ("✅ Created Jira issue *" ++ keyText r.key ++ "*: " ++ convo.summary)]⟩
        else
          ⟨.okTrue, { s with conversation_states := dictPop s.conversation_states user_id },
           [.gptDueDate convo.due_raw,
            .jiraCreateIssue ⟨"BT", convo.summary, pyStrip content, convo.priority, "Task"⟩,
            .postMessage channel_id ("❌ Failed to create Jira issue.\n" ++ r.text)]⟩

/-- Lines 70–85 of `app.py`: the per-user conversation step dispatch on the
stripped message text, after dedup and the bot/empty filter.  `none` from
`dictGet` is Python's falsy empty dict default.  The `ask_priority` branch
mutates the stored dict to the normalized priority and `step =
"create_issue"` before finalization, matching the in-place mutation at
lines 84–85.  A stored step matching no branch falls through to the bare
acknowledgment at line 136. -/
def handle_message (user_id channel_id : Option String) (user_msg : String) (w : World)
    (s : SState) : HResult :=
  match dictGet s.conversation_states user_id with
  | none =>
    ⟨.okTrue,
     { s with conversation_states :=
         dictSet s.conversation_states user_id ({ step := "ask_summary" } : Convo) },
     [.postMessage channel_id "📝 What is the task summary?"]⟩
  | some convo =>
    if convo.step = "ask_summary" then
      ⟨.okTrue,
       { s with conversation_states :=
           (dictSet s.conversation_states user_id
             ({ convo with summary := user_msg, step := "ask_due" })) },
       [.postMessage channel_id "🗕️ When is it due?"]⟩
    else if convo.step = "ask_due" then
      ⟨.okTrue,
       { s with conversation_states :=
           (dictSet s.conversation_states user_id
             ({ convo with due_raw := user_msg, step := "ask_priority" })) },
       [.postMessage channel_id "❗ How important is it? (e.g., Low, Medium, High)"]⟩
    else if convo.step = "ask_priority" then
      finalize_issue channel_id user_id
        ({ convo with priority := pyCapitalize user_msg, step := "create_issue" }) w
        ({ s with conversation_states :=
            (dictSet s.conversation_states user_id
              ({ convo with priority := pyCapitalize user_msg, step := "create_issue" })) })
    else
      ⟨.okTrue, s, []⟩

/-- The endpoint `slack_events` (lines 47–136 of `app.py`).  A payload with a
`"challenge"` key is echoed immediately.  Otherwise `data.get("event_id")`
is checked against the dedup set (a missing id is Python `None` and takes
part in dedup like any value) and, when new, added before any further
processing.  Empty/whitespace-only text or a present `bot_id` is then
acknowledged without touching sessions; otherwise the message is handed to
the conversation dispatch. -/
def slack_events (data : Payload) (w : World) (s : SState) : HResult :=
  match data.challenge with
  | some c => ⟨.challengeEcho c, s, []⟩
  | none =>
    if data.event_id ∈ s.handled_event_ids then
      ⟨.okTrue, s, []⟩
    else
      if (pyStrip data.event.text) = "" ∨ data.event.bot_id_present then
        ⟨.okTrue, ⟨data.event_id :: s.handled_event_ids, s.conversation_states⟩, []⟩
      else
        handle_message data.event.user data.event.channel (pyStrip data.event.text) w
          ⟨data.event_id :: s.handled_event_ids, s.conversation_states⟩

/-- Holds of responses of a handler invocation that ran to completion
(no uncaught exception). -/
def completed : HResp → Bool
  | .crash _ => false
  | _ => true

/-- Number of Jira issue-creation calls in a call list. -/
def countJira (cs : List Call) : Nat :=
  cs.countP (fun c => match c with | .jiraCreateIssue _ => true | _ => false)

/-- A conversation step that the source's dispatch recognises as a stored,
resumable state. -/
def validStep (c : Convo) : Bool :=
  c.step == "ask_summary" || c.step == "ask_due" || c.step == "ask_priority"

/-- Stated from the specification's words, for comparison with the source's
check: a 10-character ISO calendar date of shape `YYYY-MM-DD` (four digits,
hyphen, two digits, hyphen, two digits). -/
def specIsoShape (s : String) : Bool :=
  match s.data with
  | [y1, y2, y3, y4, h1, m1, m2, h2, d1, d2] =>
    y1.isDigit && y2.isDigit && y3.isDigit && y4.isDigit && h1 == '-' &&
    m1.isDigit && m2.isDigit && h2 == '-' && d1.isDigit && d2.isDigit
  | _ => false

/-- Stated from the specification's words, for comparison with the source's
`str.capitalize()`: the input with exactly its first character upper-cased
and no other change. -/
def specFirstUpper (s : String) : String :=
  match s.data with
  | [] => ""
  | c :: cs => String.mk (c.toUpper :: cs)

/-! ### Example inputs used by witnesses and counterexamples -/

/-- A plain user message event. -/
def evEx : InEvent := { text := "hello", user := some "U1", channel := some "C1" }

/-- A plain non-challenge payload with a fresh event id. -/
def pEx : Payload := { event_id := some "Ev1", event := evEx }

/-- A payload whose `event_id` field is absent (`data.get("event_id")` is
Python `None`). -/
def pNoId : Payload :=
  { event_id := none, event := { text := "hi", user := some "U1", channel := some "C1" } }

/-- The message "high" sent by user `U1`. -/
def pHigh : Payload :=
  { event_id := some "Ev2", event := { text := "high", user := some "U1", channel := some "C1" } }

/-- The message "LOW" sent by user `U1`. -/
def pLOW : Payload :=
  { event_id := some "Ev3", event := { text := "LOW", user := some "U1", channel := some "C1" } }

/-- A bot-originated message (the inner event carries `bot_id`). -/
def pBot : Payload :=
  { event_id := some "Ev4",
    event := { text := "hello", user := some "U1", channel := some "C1", bot_id_present := true } }

/-- Collaborators that resolve the date to `2025-07-02` and create the issue
with a 201 response carrying key `BT-1`. -/
def wEx : World := { gpt := .content "2025-07-02", jira := .resp ⟨201, "", some "BT-1"⟩ }

/-- GPT answers with a string that is 10 characters long and has a hyphen but
is not of shape `YYYY-MM-DD`. -/
def wBadShape : World := { gpt := .content "asdfasdf-x", jira := .resp ⟨201, "", some "BT-7"⟩ }

/-- Jira answers with status 200 (a 2xx that is not 201). -/
def w200 : World := { gpt := .content "2025-07-02", jira := .resp ⟨200, "ok-but-200", some "BT-9"⟩ }

/-- The Jira POST raises a network error. -/
def wJiraBoom : World := { gpt := .content "2025-07-02", jira := .raise "boom" }

/-- The GPT call raises. -/
def wGptBoom : World := { gpt := .raise "rate limited", jira := .resp ⟨201, "", some "BT-1"⟩ }

/-- The empty process state. -/
def sEmpty : SState := ⟨[], []⟩

/-- User `U1` mid-dialogue, awaiting the priority answer. -/
def sPrio : SState :=
  ⟨[], [(some "U1", { step := "ask_priority", summary := "Fix login bug", due_raw := "tomorrow" })]⟩

/-! ### Dictionary lemmas -/

theorem dictGet_dictSet (m : List (Option String × Convo)) (k : Option String) (v : Convo) :
    dictGet (dictSet m k v) k = some v := by
  induction m with
  | nil => simp [dictGet, dictSet]
  | cons hd tl ih =>
    obtain ⟨k1, v1⟩ := hd
    by_cases h : k1 = k
    · simp [dictGet, dictSet, h]
    · simp [dictGet, dictSet, h, ih]

theorem dictPop_dictSet (m : List (Option String × Convo)) (k : Option String) (v : Convo) :
    dictPop (dictSet m k v) k = dictPop m k := by
  induction m with
  | nil => simp [dictPop, dictSet]
  | cons hd tl ih =>
    obtain ⟨k1, v1⟩ := hd
    by_cases h : k1 = k
    · simp [dictPop, dictSet, h]
    · simp [dictPop, dictSet, h, ih]

theorem mem_of_mem_dictSet {k : Option String} {v : Convo} :
    ∀ {m : List (Option String × Convo)} {x : Option String × Convo},
      x ∈ dictSet m k v → x = (k, v) ∨ x ∈ m := by
  intro m
  induction m with
  | nil =>
    intro x hx
    rw [dictSet, List.mem_singleton] at hx
    exact Or.inl hx
  | cons hd tl ih =>
    intro x hx
    obtain ⟨k1, v1⟩ := hd
    by_cases h : k1 = k
    · rw [dictSet, if_pos h, List.mem_cons] at hx
      rcases hx with hx | hx
      · exact Or.inl hx
      · exact Or.inr (List.mem_cons_of_mem _ hx)
    · rw [dictSet, if_neg h, List.mem_cons] at hx
      rcases hx with hx | hx
      · exact Or.inr (hx ▸ List.mem_cons_self _ _)
      · rcases ih hx with hx2 | hx2
        · exact Or.inl hx2
        · exact Or.inr (List.mem_cons_of_mem _ hx2)

theorem mem_of_mem_dictPop {k : Option String} :
    ∀ {m : List (Option String × Convo)} {x : Option String × Convo},
      x ∈ dictPop m k → x ∈ m := by
  intro m
  induction m with
  | nil =>
    intro x hx
    exact absurd hx (by rw [dictPop]; exact List.not_mem_nil x)
  | cons hd tl ih =>
    intro x hx
    obtain ⟨k1, v1⟩ := hd
    by_cases h : k1 = k
    · rw [dictPop, if_pos h] at hx
      exact List.mem_cons_of_mem _ hx
    · rw [dictPop, if_neg h, List.mem_cons] at hx
      rcases hx with hx | hx
      · exact hx ▸ List.mem_cons_self _ _
      · exact List.mem_cons_of_mem _ (ih hx)

theorem dictGet_eq_none_of_not_mem {m : List (Option String × Convo)} {k : Option String}
    (h : k ∉ m.map Prod.fst) : dictGet m k = none := by
  induction m with
  | nil => rfl
  | cons hd tl ih =>
    obtain ⟨k1, v1⟩ := hd
    simp only [List.map_cons, List.mem_cons, not_or] at h
    rw [dictGet, if_neg (fun he => h.1 he.symm), ih h.2]

theorem dictGet_dictPop_of_nodup {m : List (Option String × Convo)} {k : Option String}
    (h : (m.map Prod.fst).Nodup) : dictGet (dictPop m k) k = none := by
  induction m with
  | nil => rfl
  | cons hd tl ih =>
    obtain ⟨k1, v1⟩ := hd
    simp only [List.map_cons, List.nodup_cons] at h
    by_cases hk : k1 = k
    · rw [dictPop, if_pos hk]
      exact dictGet_eq_none_of_not_mem (hk ▸ h.1)
    · rw [dictPop, if_neg hk, dictGet, if_neg hk]
      exact ih h.2

/-! ### Structural lemmas about the handler -/

/-- Finalization never touches the dedup set. -/
theorem finalize_issue_handled (ch u : Option String) (c : Convo) (w : World) (s : SState) :
    (finalize_issue ch u c w s).state.handled_event_ids = s.handled_event_ids := by
  unfold finalize_issue
  split
  · rfl
  · split
    · rfl
    · split
      · rfl
      · split <;> rfl

/-- The conversation dispatch never touches the dedup set. -/
theorem handle_message_handled (u ch : Option String) (msg : String) (w : World) (s : SState) :
    (handle_message u ch msg w s).state.handled_event_ids = s.handled_event_ids := by
  unfold handle_message
  split
  · rfl
  · split
    · rfl
    · split
      · rfl
      · split
        · exact finalize_issue_handled _ _ _ _ _
        · rfl

/-- After any non-challenge invocation, the payload's event id (Python `None`
when missing) is in the dedup set of the resulting state. -/
theorem mem_handled_after (p : Payload) (w : World) (s : SState) (hch : p.challenge = none) :
    p.event_id ∈ (slack_events p w s).state.handled_event_ids := by
  unfold slack_events
  simp only [hch]
  by_cases hmem : p.event_id ∈ s.handled_event_ids
  · rw [if_pos hmem]
    exact hmem
  · rw [if_neg hmem]
    by_cases hskip : (pyStrip p.event.text) = "" ∨ p.event.bot_id_present = true
    · rw [if_pos hskip]
      exact List.mem_cons_self _ _
    · rw [if_neg hskip, handle_message_handled]
      exact List.mem_cons_self _ _

/-- A non-challenge delivery whose event id is already in the dedup set is
acknowledged with no state change and no outbound call. -/
theorem dedup_hit (p : Payload) (w : World) (s : SState) (hch : p.challenge = none)
    (hmem : p.event_id ∈ s.handled_event_ids) :
    slack_events p w s = ⟨.okTrue, s, []⟩ := by
  unfold slack_events
  simp only [hch]
  rw [if_pos hmem]

/-- A fresh non-challenge delivery pushes its event id onto the dedup set,
whatever else it does. -/
theorem handled_cons (p : Payload) (w : World) (s : SState) (hch : p.challenge = none)
    (hmem : p.event_id ∉ s.handled_event_ids) :
    (slack_events p w s).state.handled_event_ids = p.event_id :: s.handled_event_ids := by
  unfold slack_events
  simp only [hch]
  rw [if_neg hmem]
  by_cases hskip : (pyStrip p.event.text) = "" ∨ p.event.bot_id_present = true
  · rw [if_pos hskip]
  · rw [if_neg hskip, handle_message_handled]

/-- Path lemma: a fresh, non-bot, non-empty message from a user whose stored
session is at step `ask_priority` reaches finalization with the stored dict
already mutated in place to the normalized priority and `step =
"create_issue"`. -/
theorem slack_events_at_priority (p : Payload) (w : World) (s : SState) (convo : Convo)
    (hch : p.challenge = none) (hmem : p.event_id ∉ s.handled_event_ids)
    (hskip : ¬ ((pyStrip p.event.text) = "" ∨ p.event.bot_id_present = true))
    (hconvo : dictGet s.conversation_states p.event.user = some convo)
    (hstep : convo.step = "ask_priority") :
    slack_events p w s =
      finalize_issue p.event.channel p.event.user
        ({ convo with priority := pyCapitalize (pyStrip p.event.text), step := "create_issue" }) w
        ⟨p.event_id :: s.handled_event_ids,
         dictSet s.conversation_states p.event.user
           ({ convo with priority := pyCapitalize (pyStrip p.event.text), step := "create_issue" })⟩ := by
  have h1 : ¬ (convo.step = "ask_summary") := by rw [hstep]; decide
  have h2 : ¬ (convo.step = "ask_due") := by rw [hstep]; decide
  unfold slack_events handle_message
  simp only [hch]
  rw [if_neg hmem, if_neg hskip]
  simp only [hconvo]
  rw [if_neg h1, if_neg h2, if_pos hstep]

/-! ### The claims -/

/-- C1: delivering the same event payload twice (same `event_id`) is
idempotent: whatever the first delivery did, the second one — even against
different collaborator behaviour — is acknowledged with `{"ok": true}` and
leaves the session map, the dedup set, and the outbound call list of that
invocation empty, so all mutations and collaborator calls come from the
first delivery alone. -/
theorem second_delivery_is_noop (p : Payload) (w w2 : World) (s : SState)
    (hch : p.challenge = none) :
    slack_events p w2 (slack_events p w s).state =
      ⟨.okTrue, (slack_events p w s).state, []⟩ :=
  dedup_hit p w2 _ hch (mem_handled_after p w s hch)

/-- Witness for C1 at a concrete fresh event. -/
theorem second_delivery_is_noop_witness :
    slack_events pEx wEx (slack_events pEx wEx sEmpty).state =
      ⟨.okTrue, (slack_events pEx wEx sEmpty).state, []⟩ :=
  second_delivery_is_noop pEx wEx wEx sEmpty rfl

/-- C2 counterexample: the first delivery of a non-challenge payload with a
missing event identifier is *not* acknowledged-and-stopped without side
effects — the run adds Python `None` to the dedup set, creates a session
for the sender, and sends the first prompt. -/
theorem missing_event_id_is_processed :
    (slack_events pNoId wEx sEmpty).state =
      ⟨[none], [(some "U1", { step := "ask_summary" })]⟩ ∧
    (slack_events pNoId wEx sEmpty).calls =
      [.postMessage (some "C1") "📝 What is the task summary?"] :=
  ⟨by rfl, by rfl⟩

/-- C2 (amended): a missing event identifier is read as Python `None` and
deduplicated like any other identifier: if `None` is already in the dedup
set the delivery is acknowledged and stopped with no side effects,
otherwise `None` is added to the dedup set and processing continues. -/
theorem missing_event_id_amended (p : Payload) (w : World) (s : SState)
    (hch : p.challenge = none) (hid : p.event_id = none) :
    (none ∈ s.handled_event_ids → slack_events p w s = ⟨.okTrue, s, []⟩) ∧
    (none ∉ s.handled_event_ids →
      (slack_events p w s).state.handled_event_ids = none :: s.handled_event_ids) := by
  constructor
  · intro hmem
    exact dedup_hit p w s hch (by rw [hid]; exact hmem)
  · intro hmem
    rw [handled_cons p w s hch (by rw [hid]; exact hmem), hid]

/-- Witness for C2 (amended) at a concrete payload with no event id. -/
theorem missing_event_id_amended_witness :
    (none ∈ sEmpty.handled_event_ids → slack_events pNoId wEx sEmpty = ⟨.okTrue, sEmpty, []⟩) ∧
    (none ∉ sEmpty.handled_event_ids →
      (slack_events pNoId wEx sEmpty).state.handled_event_ids =
        none :: sEmpty.handled_event_ids) :=
  missing_event_id_amended pNoId wEx sEmpty rfl rfl

/-- C7: a payload with a `"challenge"` field is echoed back verbatim (status
200, JSON content type, body `{"challenge": c}`) and nothing else happens:
state untouched, no outbound call. -/
theorem challenge_short_circuits (p : Payload) (w : World) (s : SState) (c : String)
    (h : p.challenge = some c) :
    slack_events p w s = ⟨.challengeEcho c, s, []⟩ := by
  unfold slack_events
  rw [h]

/-- Witness for C7 at the payload `{"challenge": "abc123"}`. -/
theorem challenge_short_circuits_witness :
    slack_events ({ challenge := some "abc123" } : Payload) wEx sEmpty =
      ⟨.challengeEcho "abc123", sEmpty, []⟩ :=
  challenge_short_circuits _ wEx sEmpty "abc123" rfl

/-- C8: an event carrying `bot_id`, or whose text strips to empty, is
acknowledged with `{"ok": true}` and leaves every session unchanged and
makes no outbound call, regardless of the sender's current step. -/
theorem bot_or_empty_leaves_sessions (p : Payload) (w : World) (s : SState)
    (hch : p.challenge = none)
    (h : p.event.bot_id_present = true ∨ (pyStrip p.event.text) = "") :
    (slack_events p w s).resp = .okTrue ∧
    (slack_events p w s).state.conversation_states = s.conversation_states ∧
    (slack_events p w s).calls = [] := by
  have hskip : (pyStrip p.event.text) = "" ∨ p.event.bot_id_present = true := h.symm
  unfold slack_events
  simp only [hch]
  by_cases hmem : p.event_id ∈ s.handled_event_ids
  · rw [if_pos hmem]
    exact ⟨rfl, rfl, rfl⟩
  · rw [if_neg hmem, if_pos hskip]
    exact ⟨rfl, rfl, rfl⟩

/-- Witness for C8: a bot message aimed at a user who is mid-dialogue. -/
theorem bot_or_empty_leaves_sessions_witness :
    (slack_events pBot wEx sPrio).resp = .okTrue ∧
    (slack_events pBot wEx sPrio).state.conversation_states = sPrio.conversation_states ∧
    (slack_events pBot wEx sPrio).calls = [] :=
  bot_or_empty_leaves_sessions pBot wEx sPrio rfl (Or.inl rfl)

/-- Step invariant through finalization: if every session other than the
(first) one stored for `u` has a recognised step, and finalization returned
normally, every stored session has a recognised step. -/
theorem finalize_issue_steps (ch u : Option String) (c : Convo) (w : World) (s : SState)
    (hinv : ∀ e ∈ dictPop s.conversation_states u, validStep e.2 = true)
    (hcomp : completed (finalize_issue ch u c w s).resp = true) :
    ∀ e ∈ (finalize_issue ch u c w s).state.conversation_states, validStep e.2 = true := by
  revert hcomp
  unfold finalize_issue
  split
  · exact fun _ => hinv
  · split
    · exact fun _ => hinv
    · split
      · intro hcomp
        simp [completed] at hcomp
      · split
        · exact fun _ => hinv
        · exact fun _ => hinv

/-- Step invariant through the conversation dispatch. -/
theorem handle_message_steps (u ch : Option String) (msg : String) (w : World) (s : SState)
    (hinv : ∀ e ∈ s.conversation_states, validStep e.2 = true)
    (hcomp : completed (handle_message u ch msg w s).resp = true) :
    ∀ e ∈ (handle_message u ch msg w s).state.conversation_states, validStep e.2 = true := by
  revert hcomp
  unfold handle_message
  split
  · intro _ e he
    rcases mem_of_mem_dictSet he with rfl | he2
    · rfl
    · exact hinv e he2
  · split
    · intro _ e he
      rcases mem_of_mem_dictSet he with rfl | he2
      · rfl
      · exact hinv e he2
    · split
      · intro _ e he
        rcases mem_of_mem_dictSet he with rfl | he2
        · rfl
        · exact hinv e he2
      · split
        · intro hcomp
          refine finalize_issue_steps _ _ _ _ _ ?_ hcomp
          intro e he
          rw [dictPop_dictSet] at he
          exact hinv e (mem_of_mem_dictPop he)
        · exact fun _ => hinv

/-- C10: after every handler invocation that returns normally (no uncaught
collaborator exception), every stored session has step `ask_summary`,
`ask_due` or `ask_priority` — the transient `create_issue` step is never
observable in the stored map, provided the incoming map satisfied the same
invariant. -/
theorem stored_steps_valid (p : Payload) (w : World) (s : SState)
    (hinv : ∀ e ∈ s.conversation_states, validStep e.2 = true)
    (hcomp : completed (slack_events p w s).resp = true) :
    ∀ e ∈ (slack_events p w s).state.conversation_states, validStep e.2 = true := by
  revert hcomp
  unfold slack_events
  split
  · exact fun _ => hinv
  · split
    · exact fun _ => hinv
    · split
      · exact fun _ => hinv
      · exact fun hcomp => handle_message_steps _ _ _ _ _ hinv hcomp

/-- Witness for C10: after a first message creates a session, the stored
entry carries a recognised step. -/
theorem stored_steps_valid_witness :
    validStep ⟨"ask_summary", "", "", ""⟩ = true :=
  stored_steps_valid pEx wEx sEmpty (by decide) (by decide)
    (some "U1", ⟨"ask_summary", "", "", ""⟩) (by decide)

/-- The source's due-date check accepts exactly the strings of length 10
containing a hyphen. -/
theorem format_check_passes {content : String} (hlen : (pyStrip content).length = 10)
    (hdash : pyContains (pyStrip content) '-' = true) :
    ¬ ((pyStrip content).length ≠ 10 ∨ pyContains (pyStrip content) '-' = false) := by
  push_neg
  exact ⟨hlen, by simp [hdash]⟩

/-- Looking up a key right after storing a value for it and popping it again
finds nothing (on a duplicate-free map, i.e. a real Python dict). -/
theorem dictGet_pop_set_none {m : List (Option String × Convo)} {k : Option String} {v : Convo}
    (h : (m.map Prod.fst).Nodup) : dictGet (dictPop (dictSet m k v) k) k = none := by
  rw [dictPop_dictSet]
  exact dictGet_dictPop_of_nodup h

/-- Equation: finalization when the GPT call raises. -/
theorem finalize_issue_gpt_raise (ch u : Option String) (c : Convo) (w : World) (s : SState)
    (e : String) (hgpt : w.gpt = .raise e) :
    finalize_issue ch u c w s =
      ⟨.okTrue, { s with conversation_states := dictPop s.conversation_states u },
       [.gptDueDate c.due_raw,
        .postMessage ch ("❌ GPT error parsing due date: " ++ e)]⟩ := by
  unfold finalize_issue
  rw [hgpt]

/-- Equation: finalization when GPT returns content failing the
`len == 10 and "-" in s` check. -/
theorem finalize_issue_format_fail (ch u : Option String) (c : Convo) (w : World) (s : SState)
    (content : String) (hgpt : w.gpt = .content content)
    (hbad : (pyStrip content).length ≠ 10 ∨ pyContains (pyStrip content) '-' = false) :
    finalize_issue ch u c w s =
      ⟨.okTrue, { s with conversation_states := dictPop s.conversation_states u },
       [.gptDueDate c.due_raw,
        .postMessage ch
          "⚠️ Couldn\x27t understand the due date. Please say something like \x27tomorrow\x27 or \x27July 2, 2025\x27."]⟩ := by
  unfold finalize_issue
  simp only [hgpt]
  rw [if_pos hbad]

/-- Equation: finalization when the date passes the check and the Jira POST
raises: the exception propagates, the mutated session stays stored. -/
theorem finalize_issue_jira_raise (ch u : Option String) (c : Convo) (w : World) (s : SState)
    (content : String) (e : String) (hgpt : w.gpt = .content content)
    (hok : ¬ ((pyStrip content).length ≠ 10 ∨ pyContains (pyStrip content) '-' = false))
    (hj : w.jira = .raise e) :
    finalize_issue ch u c w s =
      ⟨.crash e, s,
       [.gptDueDate c.due_raw,
        .jiraCreateIssue ⟨"BT", c.summary, pyStrip content, c.priority, "Task"⟩]⟩ := by
  unfold finalize_issue
  simp only [hgpt]
  rw [if_neg hok]
  rw [hj]

/-- Equation: finalization when the date passes the check and the Jira POST
returns a response `r`: the session is removed and the user is notified
with the 201-success message or the failure message with the raw body. -/
theorem finalize_issue_jira_resp (ch u : Option String) (c : Convo) (w : World) (s : SState)
    (content : String) (r : JiraResp) (hgpt : w.gpt = .content content)
    (hok : ¬ ((pyStrip content).length ≠ 10 ∨ pyContains (pyStrip content) '-' = false))
    (hj : w.jira = .resp r) :
    finalize_issue ch u c w s =
      ⟨.okTrue, { s with conversation_states := dictPop s.conversation_states u },
       [.gptDueDate c.due_raw,
        .jiraCreateIssue ⟨"BT", c.summary, pyStrip content, c.priority, "Task"⟩,
        .postMessage ch
          (if r.status_code = 201
           then "✅ Created Jira issue *" ++ keyText r.key ++ "*: " ++ c.summary
           else "❌ Failed to create Jira issue.\n" ++ r.text)]⟩ := by
  unfold finalize_issue
  simp only [hgpt]
  rw [if_neg hok]
  simp only [hj]
  by_cases hr : r.status_code = 201
  · rw [if_pos hr, if_pos hr]
  · rw [if_neg hr, if_neg hr]

/-- C9: an exception in the GPT date-resolution call during finalization is
caught: the handler still answers `{"ok": true}`, the sender's session is
gone, and the outbound calls of the invocation are exactly the GPT attempt
and one Slack message carrying the exception text — in particular zero
Jira issue-creation calls. -/
theorem gpt_exception_contained (p : Payload) (w : World) (s : SState) (convo : Convo)
    (e : String)
    (hch : p.challenge = none) (hmem : p.event_id ∉ s.handled_event_ids)
    (hskip : ¬ ((pyStrip p.event.text) = "" ∨ p.event.bot_id_present = true))
    (hconvo : dictGet s.conversation_states p.event.user = some convo)
    (hstep : convo.step = "ask_priority")
    (hnodup : (s.conversation_states.map Prod.fst).Nodup)
    (hgpt : w.gpt = .raise e) :
    (slack_events p w s).resp = .okTrue ∧
    dictGet (slack_events p w s).state.conversation_states p.event.user = none ∧
    (slack_events p w s).calls =
      [.gptDueDate convo.due_raw,
       .postMessage p.event.channel ("❌ GPT error parsing due date: " ++ e)] ∧
    countJira (slack_events p w s).calls = 0 := by
  rw [slack_events_at_priority p w s convo hch hmem hskip hconvo hstep,
    finalize_issue_gpt_raise _ _ _ _ _ _ hgpt]
  exact ⟨rfl, dictGet_pop_set_none hnodup, rfl, rfl⟩

/-- Witness for C9 at a concrete GPT failure. -/
theorem gpt_exception_contained_witness :
    (slack_events pHigh wGptBoom sPrio).resp = .okTrue ∧
    dictGet (slack_events pHigh wGptBoom sPrio).state.conversation_states
      pHigh.event.user = none ∧
    (slack_events pHigh wGptBoom sPrio).calls =
      [.gptDueDate "tomorrow",
       .postMessage pHigh.event.channel ("❌ GPT error parsing due date: " ++ "rate limited")] ∧
    countJira (slack_events pHigh wGptBoom sPrio).calls = 0 :=
  gpt_exception_contained pHigh wGptBoom sPrio
    ({ step := "ask_priority", summary := "Fix login bug", due_raw := "tomorrow" }) "rate limited"
    rfl (by decide) (by decide) (by decide) rfl (by decide) rfl

/-- C3 counterexample: the resolver "succeeds" with `"asdfasdf-x"` — ten
characters with a hyphen but not a `YYYY-MM-DD` calendar date — and the
handler still proceeds to a Jira issue-creation call. -/
theorem due_date_shape_cex :
    specIsoShape "asdfasdf-x" = false ∧
    0 < countJira (slack_events pHigh wBadShape sPrio).calls := by decide

/-- C3 (amended): at finalization the dialogue proceeds to a Jira
issue-creation call iff the stripped resolver output has exactly 10
characters and contains at least one `-` character (the source checks only
`len == 10 and "-" in s`, not the full `YYYY-MM-DD` shape); any other
output is treated as a resolution failure: the user is warned, the session
is destroyed, and no Jira call is made. -/
theorem due_date_length_dash_gate (p : Payload) (w : World) (s : SState) (convo : Convo)
    (content : String)
    (hch : p.challenge = none) (hmem : p.event_id ∉ s.handled_event_ids)
    (hskip : ¬ ((pyStrip p.event.text) = "" ∨ p.event.bot_id_present = true))
    (hconvo : dictGet s.conversation_states p.event.user = some convo)
    (hstep : convo.step = "ask_priority")
    (hnodup : (s.conversation_states.map Prod.fst).Nodup)
    (hgpt : w.gpt = .content content) :
    (0 < countJira (slack_events p w s).calls ↔
      ((pyStrip content).length = 10 ∧ pyContains (pyStrip content) '-' = true)) ∧
    (¬ ((pyStrip content).length = 10 ∧ pyContains (pyStrip content) '-' = true) →
      (slack_events p w s).resp = .okTrue ∧
      dictGet (slack_events p w s).state.conversation_states p.event.user = none ∧
      (slack_events p w s).calls =
        [.gptDueDate convo.due_raw,
         .postMessage p.event.channel
           "⚠️ Couldn\x27t understand the due date. Please say something like \x27tomorrow\x27 or \x27July 2, 2025\x27."]) := by
  by_cases hcond : (pyStrip content).length = 10 ∧ pyContains (pyStrip content) '-' = true
  · have hok := format_check_passes hcond.1 hcond.2
    cases hj : w.jira with
    | raise e =>
      rw [slack_events_at_priority p w s convo hch hmem hskip hconvo hstep,
        finalize_issue_jira_raise _ _ _ _ _ _ _ hgpt hok hj]
      exact ⟨⟨fun _ => hcond, fun _ => Nat.one_pos⟩, fun hno => absurd hcond hno⟩
    | resp r =>
      rw [slack_events_at_priority p w s convo hch hmem hskip hconvo hstep,
        finalize_issue_jira_resp _ _ _ _ _ _ _ hgpt hok hj]
      exact ⟨⟨fun _ => hcond, fun _ => Nat.one_pos⟩, fun hno => absurd hcond hno⟩
  · have hor : (pyStrip content).length ≠ 10 ∨ pyContains (pyStrip content) '-' = false := by
      by_cases hl : (pyStrip content).length = 10
      · right
        by_cases hc2 : pyContains (pyStrip content) '-' = true
        · exact absurd ⟨hl, hc2⟩ hcond
        · rw [Bool.not_eq_true] at hc2
          exact hc2
      · exact Or.inl hl
    rw [slack_events_at_priority p w s convo hch hmem hskip hconvo hstep,
      finalize_issue_format_fail _ _ _ _ _ _ hgpt hor]
    exact ⟨⟨fun hlt => absurd hlt (lt_irrefl 0), fun hc3 => absurd hc3 hcond⟩,
      fun _ => ⟨rfl, dictGet_pop_set_none hnodup, rfl⟩⟩

/-- Witness for C3 (amended): the unparseable-looking but length-10 dash
string `"asdfasdf-x"` passes the source's check and a Jira call happens. -/
theorem due_date_length_dash_gate_witness :
    (0 < countJira (slack_events pHigh wBadShape sPrio).calls ↔
      ((pyStrip "asdfasdf-x").length = 10 ∧ pyContains (pyStrip "asdfasdf-x") '-' = true)) ∧
    (¬ ((pyStrip "asdfasdf-x").length = 10 ∧ pyContains (pyStrip "asdfasdf-x") '-' = true) →
      (slack_events pHigh wBadShape sPrio).resp = .okTrue ∧
      dictGet (slack_events pHigh wBadShape sPrio).state.conversation_states
        pHigh.event.user = none ∧
      (slack_events pHigh wBadShape sPrio).calls =
        [.gptDueDate "tomorrow",
         .postMessage pHigh.event.channel
           "⚠️ Couldn\x27t understand the due date. Please say something like \x27tomorrow\x27 or \x27July 2, 2025\x27."]) :=
  due_date_length_dash_gate pHigh wBadShape sPrio
    ({ step := "ask_priority", summary := "Fix login bug", due_raw := "tomorrow" }) "asdfasdf-x"
    rfl (by decide) (by decide) (by decide) rfl (by decide) rfl

/-- C4 counterexample: Jira answers with status 200 — a 2xx success by the
claim's classification — yet the user is sent the failure message with the
raw body, not the success notification. -/
theorem jira_2xx_cex :
    (slack_events pHigh w200 sPrio).calls =
      [.gptDueDate "tomorrow",
       .jiraCreateIssue ⟨"BT", "Fix login bug", "2025-07-02", "High", "Task"⟩,
       .postMessage (some "C1") "❌ Failed to create Jira issue.\nok-but-200"] := by decide

/-- C4 (amended): the outcome classification of the ticket-creation call is:
exactly status 201 is a success (user notified with the issue key and the
stored summary); every other status — 2xx or not — is a failure (user
notified with the raw response body); and an exception raised by the call
itself is not caught: it propagates out of the handler. -/
theorem jira_status_classification (p : Payload) (w : World) (s : SState) (convo : Convo)
    (content : String)
    (hch : p.challenge = none) (hmem : p.event_id ∉ s.handled_event_ids)
    (hskip : ¬ ((pyStrip p.event.text) = "" ∨ p.event.bot_id_present = true))
    (hconvo : dictGet s.conversation_states p.event.user = some convo)
    (hstep : convo.step = "ask_priority")
    (hgpt : w.gpt = .content content)
    (hlen : (pyStrip content).length = 10)
    (hdash : pyContains (pyStrip content) '-' = true) :
    (∀ r, w.jira = .resp r →
      (slack_events p w s).resp = .okTrue ∧
      (slack_events p w s).calls =
        [.gptDueDate convo.due_raw,
         .jiraCreateIssue
           ⟨"BT", convo.summary, pyStrip content, pyCapitalize (pyStrip p.event.text), "Task"⟩,
         .postMessage p.event.channel
           (if r.status_code = 201
            then "✅ Created Jira issue *" ++ keyText r.key ++ "*: " ++ convo.summary
            else "❌ Failed to create Jira issue.\n" ++ r.text)]) ∧
    (∀ e, w.jira = .raise e → (slack_events p w s).resp = .crash e) := by
  constructor
  · intro r hj
    rw [slack_events_at_priority p w s convo hch hmem hskip hconvo hstep,
      finalize_issue_jira_resp _ _ _ _ _ _ _ hgpt (format_check_passes hlen hdash) hj]
    exact ⟨rfl, rfl⟩
  · intro e hj
    rw [slack_events_at_priority p w s convo hch hmem hskip hconvo hstep,
      finalize_issue_jira_raise _ _ _ _ _ _ _ hgpt (format_check_passes hlen hdash) hj]

/-- Witness for C4 (amended) at the concrete 200 response. -/
theorem jira_status_classification_witness :
    (∀ r, w200.jira = .resp r →
      (slack_events pHigh w200 sPrio).resp = .okTrue ∧
      (slack_events pHigh w200 sPrio).calls =
        [.gptDueDate "tomorrow",
         .jiraCreateIssue
           ⟨"BT", "Fix login bug", pyStrip "2025-07-02",
            pyCapitalize (pyStrip pHigh.event.text), "Task"⟩,
         .postMessage pHigh.event.channel
           (if r.status_code = 201
            then "✅ Created Jira issue *" ++ keyText r.key ++ "*: " ++ "Fix login bug"
            else "❌ Failed to create Jira issue.\n" ++ r.text)]) ∧
    (∀ e, w200.jira = .raise e → (slack_events pHigh w200 sPrio).resp = .crash e) :=
  jira_status_classification pHigh w200 sPrio
    ({ step := "ask_priority", summary := "Fix login bug", due_raw := "tomorrow" }) "2025-07-02"
    rfl (by decide) (by decide) (by decide) rfl rfl (by decide) (by decide)

/-- C5 counterexample: on input `"LOW"` the stored and sent priority is
`"Low"` — Python `str.capitalize()` lower-cases the tail — whereas
upper-casing only the first character with no other change would keep
`"LOW"`. -/
theorem priority_capitalize_cex :
    specFirstUpper "LOW" = "LOW" ∧
    (slack_events pLOW wEx sPrio).calls =
      [.gptDueDate "tomorrow",
       .jiraCreateIssue ⟨"BT", "Fix login bug", "2025-07-02", "Low", "Task"⟩,
       .postMessage (some "C1") "✅ Created Jira issue *BT-1*: Fix login bug"] := by decide

/-- C5 (amended): the priority stored at the `ask_priority` step and passed
through to the Jira request is the (stripped) input with its first
character upper-cased and every remaining character lower-cased (Python
`str.capitalize()`); no validation against an allowed set is performed —
every non-empty text reaches the Jira call unchanged otherwise. -/
theorem priority_pass_through (p : Payload) (w : World) (s : SState) (convo : Convo)
    (content : String) (c : Char) (cs : List Char)
    (hch : p.challenge = none) (hmem : p.event_id ∉ s.handled_event_ids)
    (hskip : ¬ ((pyStrip p.event.text) = "" ∨ p.event.bot_id_present = true))
    (hconvo : dictGet s.conversation_states p.event.user = some convo)
    (hstep : convo.step = "ask_priority")
    (hgpt : w.gpt = .content content)
    (hlen : (pyStrip content).length = 10)
    (hdash : pyContains (pyStrip content) '-' = true)
    (hdata : (pyStrip p.event.text).data = c :: cs) :
    Call.jiraCreateIssue
        ⟨"BT", convo.summary, pyStrip content,
         String.mk (c.toUpper :: cs.map Char.toLower), "Task"⟩
      ∈ (slack_events p w s).calls := by
  have hcap : pyCapitalize (pyStrip p.event.text) = String.mk (c.toUpper :: cs.map Char.toLower) := by
    unfold pyCapitalize
    rw [hdata]
  cases hj : w.jira with
  | raise e =>
    rw [slack_events_at_priority p w s convo hch hmem hskip hconvo hstep,
      finalize_issue_jira_raise _ _ _ _ _ _ _ hgpt (format_check_passes hlen hdash) hj]
    simp only [hcap]
    exact List.mem_cons_of_mem _ (List.mem_cons_self _ _)
  | resp r =>
    rw [slack_events_at_priority p w s convo hch hmem hskip hconvo hstep,
      finalize_issue_jira_resp _ _ _ _ _ _ _ hgpt (format_check_passes hlen hdash) hj]
    simp only [hcap]
    exact List.mem_cons_of_mem _ (List.mem_cons_self _ _)

/-- Witness for C5 (amended) at the input `"LOW"`. -/
theorem priority_pass_through_witness :
    Call.jiraCreateIssue
        ⟨"BT", "Fix login bug", pyStrip "2025-07-02",
         String.mk ('L'.toUpper :: ['O', 'W'].map Char.toLower), "Task"⟩
      ∈ (slack_events pLOW wEx sPrio).calls :=
  priority_pass_through pLOW wEx sPrio
    ({ step := "ask_priority", summary := "Fix login bug", due_raw := "tomorrow" }) "2025-07-02"
    'L' ['O', 'W']
    rfl (by decide) (by decide) (by decide) rfl rfl (by decide) (by decide) (by decide)

/-- C6 counterexample: the ticket-creation call raises (a network error — a
ticket-creation failure in the claim's classification); the exception
propagates and the session for `U1` is still in the map afterwards, frozen
at the transient `create_issue` step. -/
theorem session_lingers_on_jira_exception :
    (slack_events pHigh wJiraBoom sPrio).resp = .crash "boom" ∧
    dictGet (slack_events pHigh wJiraBoom sPrio).state.conversation_states (some "U1") =
      some ⟨"create_issue", "Fix login bug", "tomorrow", "High"⟩ := by decide

/-- C6 (amended): whenever finalization returns normally — date-resolution
exception, malformed resolved date, ticket-creation 201 success, or any
other ticket-creation response — the sender's session is removed before
the handler returns; but if the ticket-creation call itself raises, the
exception propagates and the session remains stored with the transient
`create_issue` step. -/
theorem finalization_destroys_session (p : Payload) (w : World) (s : SState) (convo : Convo)
    (hch : p.challenge = none) (hmem : p.event_id ∉ s.handled_event_ids)
    (hskip : ¬ ((pyStrip p.event.text) = "" ∨ p.event.bot_id_present = true))
    (hconvo : dictGet s.conversation_states p.event.user = some convo)
    (hstep : convo.step = "ask_priority")
    (hnodup : (s.conversation_states.map Prod.fst).Nodup) :
    ((slack_events p w s).resp = .okTrue →
      dictGet (slack_events p w s).state.conversation_states p.event.user = none) ∧
    (∀ e, (slack_events p w s).resp = .crash e →
      dictGet (slack_events p w s).state.conversation_states p.event.user =
        some ({ convo with priority := pyCapitalize (pyStrip p.event.text), step := "create_issue" })) := by
  cases hg : w.gpt with
  | raise e2 =>
    rw [slack_events_at_priority p w s convo hch hmem hskip hconvo hstep,
      finalize_issue_gpt_raise _ _ _ _ _ _ hg]
    exact ⟨fun _ => dictGet_pop_set_none hnodup, fun e he => HResp.noConfusion he⟩
  | content content =>
    by_cases hf : (pyStrip content).length ≠ 10 ∨ pyContains (pyStrip content) '-' = false
    · rw [slack_events_at_priority p w s convo hch hmem hskip hconvo hstep,
        finalize_issue_format_fail _ _ _ _ _ _ hg hf]
      exact ⟨fun _ => dictGet_pop_set_none hnodup, fun e he => HResp.noConfusion he⟩
    · cases hj : w.jira with
      | raise e2 =>
        rw [slack_events_at_priority p w s convo hch hmem hskip hconvo hstep,
          finalize_issue_jira_raise _ _ _ _ _ _ _ hg hf hj]
        exact ⟨fun h => HResp.noConfusion h, fun e _ => dictGet_dictSet _ _ _⟩
      | resp r =>
        rw [slack_events_at_priority p w s convo hch hmem hskip hconvo hstep,
          finalize_issue_jira_resp _ _ _ _ _ _ _ hg hf hj]
        exact ⟨fun _ => dictGet_pop_set_none hnodup, fun e he => HResp.noConfusion he⟩

/-- Witness for C6 (amended): a normal 201 run removes the session; the
crash clause is vacuous there. -/
theorem finalization_destroys_session_witness :
    ((slack_events pHigh wEx sPrio).resp = .okTrue →
      dictGet (slack_events pHigh wEx sPrio).state.conversation_states pHigh.event.user = none) ∧
    (∀ e, (slack_events pHigh wEx sPrio).resp = .crash e →
      dictGet (slack_events pHigh wEx sPrio).state.conversation_states pHigh.event.user =
        some ({ step := "create_issue", summary := "Fix login bug", due_raw := "tomorrow", priority := pyCapitalize (pyStrip pHigh.event.text) })) :=
  finalization_destroys_session pHigh wEx sPrio
    ({ step := "ask_priority", summary := "Fix login bug", due_raw := "tomorrow" })
    rfl (by decide) (by decide) (by decide) rfl (by decide)

end JiraBot
